import Mathlib

/-!
Verification of the conversation relay and provider-routing service
(clm_server/server.py) of the hume-voice-demo repository.

The Python code is shallowly embedded: JSON-like payloads become the
inductive type `Json`, Python dicts become association lists
`List (String × Json)`, and code that can raise a Python exception is
modelled as a function into `Except PyErr _`.  Machine floats carried by
the payloads are modelled as exact rationals; the two-decimal rendering
used for the prompt-enrichment string is the idealized decimal rounding
of those rationals.
-/

/-- A JSON-like Python value, as handled by the relay server. -/
inductive Json where
  | null
  | bool (b : Bool)
  | num (q : Rat)
  | str (s : String)
  | arr (xs : List Json)
  | obj (kvs : List (String × Json))
deriving Repr

/-- The kinds of Python exception the embedded code can raise. -/
inductive PyErr where
  | attributeError
  | typeError
  | keyError
  | valueError
  | indexError
deriving DecidableEq, Repr

/-- Python str.strip: drop whitespace from both ends.  Implemented over
the character list so that concrete instances reduce definitionally. -/
def pyStrip (s : String) : String :=
  String.mk (((s.data.dropWhile Char.isWhitespace).reverse.dropWhile Char.isWhitespace).reverse)

/-- Python dict.get with a default: total on association lists. -/
def dictGet (d : List (String × Json)) (k : String) (dflt : Json) : Json :=
  match d.lookup k with
  | some v => v
  | none => dflt

/-- Python str.strip applied to a value that must be a string
(raises AttributeError otherwise, as .strip does on a non-str). -/
def stripVal : Json → Except PyErr String
  | Json.str s => Except.ok (pyStrip s)
  | _ => Except.error PyErr.attributeError

/-- The reverse scan of the messages list inside _extract_transcript:
returns some transcript if an entry with role user produced one, none if
the loop fell through, and an error when the loop raises (a non-dict
entry, or a mapping content whose text field is not a string). -/
def scanUser : List Json → Except PyErr (Option String)
  | [] => Except.ok none
  | m :: rest =>
    match m with
    | Json.obj kvs =>
      match dictGet kvs "role" Json.null with
      | Json.str r =>
        if r = "user" then
          match dictGet kvs "content" (Json.str "") with
          | Json.str s => Except.ok (some (pyStrip s))
          | Json.obj c => (stripVal (dictGet c "text" (Json.str ""))).map some
          | _ => scanUser rest
        else scanUser rest
      | _ => scanUser rest
    | _ => Except.error PyErr.attributeError

/-- The trailing rules of _extract_transcript: the top-level transcript
field, then the top-level text field, then the empty string. -/
def transcriptFallback (message : List (String × Json)) : Except PyErr String :=
  match message.lookup "transcript" with
  | some v => stripVal v
  | none =>
    match message.lookup "text" with
    | some v => stripVal v
    | none => Except.ok ""

/-- _extract_transcript from server.py. -/
def extract_transcript (message : List (String × Json)) : Except PyErr String :=
  match message.lookup "messages" with
  | some (Json.arr ms) =>
    match scanUser ms.reverse with
    | Except.error e => Except.error e
    | Except.ok (some r) => Except.ok r
    | Except.ok none => transcriptFallback message
  | some _ => Except.error PyErr.typeError
  | none => transcriptFallback message

/-- One flattened emotion entry of _extract_emotions: a dict with the
name field (default the string unknown) and the score field (default 0.0). -/
def emotionEntry (ekvs : List (String × Json)) : List (String × Json) :=
  [("name", dictGet ekvs "name" (Json.str "unknown")),
   ("score", dictGet ekvs "score" (Json.num 0))]

/-- The inner loop over one predictions entry's emotions list. -/
def entriesOfEmotionList : List Json → Except PyErr (List (List (String × Json)))
  | [] => Except.ok []
  | Json.obj ekvs :: rest =>
    match entriesOfEmotionList rest with
    | Except.ok tl => Except.ok (emotionEntry ekvs :: tl)
    | Except.error e => Except.error e
  | _ :: _ => Except.error PyErr.attributeError

/-- The loop over a prosody predictions list. -/
def entriesOfPreds : List Json → Except PyErr (List (List (String × Json)))
  | [] => Except.ok []
  | Json.obj pkvs :: rest =>
    match dictGet pkvs "emotions" (Json.arr []) with
    | Json.arr es =>
      match entriesOfEmotionList es, entriesOfPreds rest with
      | Except.ok hd, Except.ok tl => Except.ok (hd ++ tl)
      | Except.error e, _ => Except.error e
      | _, Except.error e => Except.error e
    | _ => Except.error PyErr.typeError
  | _ :: _ => Except.error PyErr.attributeError

/-- The models/prosody/predictions walk of _extract_emotions, applied to
one container dict (the payload itself, or one element of messages). -/
def prosodyBlock (container : List (String × Json)) : Except PyErr (List (List (String × Json))) :=
  match container.lookup "models" with
  | none => Except.ok []
  | some (Json.obj mkvs) =>
    match dictGet mkvs "prosody" (Json.obj []) with
    | Json.obj pkvs =>
      match pkvs.lookup "predictions" with
      | none => Except.ok []
      | some (Json.arr preds) => entriesOfPreds preds
      | some _ => Except.error PyErr.typeError
    | _ => Except.error PyErr.typeError
  | some _ => Except.error PyErr.attributeError

/-- The loop of _extract_emotions over the elements of a messages list. -/
def msgsProsody : List Json → Except PyErr (List (List (String × Json)))
  | [] => Except.ok []
  | Json.obj kvs :: rest =>
    match prosodyBlock kvs, msgsProsody rest with
    | Except.ok hd, Except.ok tl => Except.ok (hd ++ tl)
    | Except.error e, _ => Except.error e
    | _, Except.error e => Except.error e
  | _ :: _ => Except.error PyErr.typeError

/-- Python float coercion as used on emotion_features values; strings
that parse as numbers are not modelled, no covered payload carries them. -/
def pyFloat : Json → Except PyErr Rat
  | Json.num q => Except.ok q
  | Json.bool b => Except.ok (if b then 1 else 0)
  | _ => Except.error PyErr.valueError

/-- The loop of _extract_emotions over an emotion_features mapping. -/
def featEntries : List (String × Json) → Except PyErr (List (List (String × Json)))
  | [] => Except.ok []
  | (n, v) :: rest =>
    match pyFloat v, featEntries rest with
    | Except.ok q, Except.ok tl =>
      Except.ok ([("name", Json.str n), ("score", Json.num q)] :: tl)
    | Except.error e, _ => Except.error e
    | _, Except.error e => Except.error e

/-- The middle source of _extract_emotions as a function of the payload:
prosody blocks found inside the elements of a messages list. -/
def messagesEmotions (message : List (String × Json)) : Except PyErr (List (List (String × Json))) :=
  match message.lookup "messages" with
  | none => Except.ok []
  | some (Json.arr ms) => msgsProsody ms
  | some _ => Except.error PyErr.typeError

/-- The third source of _extract_emotions as a function of the payload:
the flat emotion_features mapping. -/
def featuresEmotions (message : List (String × Json)) : Except PyErr (List (List (String × Json))) :=
  match message.lookup "emotion_features" with
  | none => Except.ok []
  | some (Json.obj fkvs) => featEntries fkvs
  | some _ => Except.error PyErr.attributeError

/-- _extract_emotions from server.py: the three sources concatenated in
source order. -/
def extract_emotions (message : List (String × Json)) : Except PyErr (List (List (String × Json))) :=
  match prosodyBlock message with
  | Except.error e => Except.error e
  | Except.ok a =>
    match messagesEmotions message with
    | Except.error e => Except.error e
    | Except.ok b =>
      match featuresEmotions message with
      | Except.error e => Except.error e
      | Except.ok c => Except.ok (a ++ b ++ c)

/-- Round a rational to the nearest integer number of hundredths, ties
to even: the idealized decimal behaviour of the Python format spec .2f. -/
def round2 (q : Rat) : Int :=
  let n := 100 * q.num
  let d : Int := (q.den : Int)
  let fl := Int.fdiv n d
  let r := n - fl * d
  if 2 * r < d then fl
  else if d < 2 * r then fl + 1
  else if fl % 2 = 0 then fl else fl + 1

/-- Render a number of hundredths as two decimal digits. -/
def twoDigits (n : Nat) : String :=
  (if n < 10 then "0" else "") ++ toString n

/-- The two-decimal rendering of a score, as the Python format spec .2f
produces for the exact rational value. -/
def fmt2 (q : Rat) : String :=
  let n := round2 q
  let sign := if n < 0 then "-" else ""
  let a := n.natAbs
  sign ++ toString (a / 100) ++ "." ++ twoDigits (a % 100)

/-- Python str conversion as used when an f-string interpolates the name
field of an emotion entry.  Only the string case is exercised by the
covered payloads; renderings of the other shapes are abstract. -/
def fstr : Json → String
  | Json.str s => s
  | Json.num q => toString q
  | Json.bool b => if b then "True" else "False"
  | Json.null => "None"
  | Json.arr _ => "<list>"
  | Json.obj _ => "<dict>"

/-- The descending-by-score order used by sorted with reverse=True on
entries paired with their numeric sort key. -/
def entryDesc (a b : (List (String × Json)) × Rat) : Prop := b.2 ≤ a.2

instance : DecidableRel entryDesc := fun a b => inferInstanceAs (Decidable (b.2 ≤ a.2))

/-- The sort key e.get of the score field with default 0, which must be
number-like for the comparisons performed by sorted. -/
def sortKeyOf (e : List (String × Json)) : Except PyErr Rat :=
  match dictGet e "score" (Json.num 0) with
  | Json.num q => Except.ok q
  | Json.bool b => Except.ok (if b then 1 else 0)
  | _ => Except.error PyErr.typeError

/-- Pair every emotion entry with its sort key. -/
def keyedEntries : List (List (String × Json)) → Except PyErr (List ((List (String × Json)) × Rat))
  | [] => Except.ok []
  | e :: rest =>
    match sortKeyOf e, keyedEntries rest with
    | Except.ok q, Except.ok tl => Except.ok ((e, q) :: tl)
    | Except.error er, _ => Except.error er
    | _, Except.error er => Except.error er

/-- The f-string rendering of the selected top entries: name and score
are fetched by indexing, so a missing key raises KeyError and a score
that is not number-like fails the .2f format. -/
def fmtParts : List ((List (String × Json)) × Rat) → Except PyErr (List String)
  | [] => Except.ok []
  | (e, _) :: rest =>
    match e.lookup "name" with
    | none => Except.error PyErr.keyError
    | some n =>
      match e.lookup "score" with
      | none => Except.error PyErr.keyError
      | some sv =>
        match sv with
        | Json.num q =>
          match fmtParts rest with
          | Except.ok tl => Except.ok ((fstr n ++ ": " ++ fmt2 q) :: tl)
          | Except.error er => Except.error er
        | Json.bool b =>
          match fmtParts rest with
          | Except.ok tl => Except.ok ((fstr n ++ ": " ++ fmt2 (if b then 1 else 0)) :: tl)
          | Except.error er => Except.error er
        | _ => Except.error PyErr.typeError

/-- The emotion_context construction shared by the websocket handler and
the direct chat endpoint: empty string for no emotions, otherwise the
bracketed top-5 summary of the entries sorted descending by score. -/
def emotion_context (emotions : List (List (String × Json))) : Except PyErr String :=
  match emotions with
  | [] => Except.ok ""
  | _ :: _ =>
    match keyedEntries emotions with
    | Except.error e => Except.error e
    | Except.ok keyed =>
      match fmtParts ((keyed.insertionSort entryDesc).take 5) with
      | Except.error e => Except.error e
      | Except.ok parts =>
        Except.ok ("\n[Voice emotion analysis: " ++ String.intercalate ", " parts ++ "]")

/-- An emotion signal as the specification describes it: a label with a
numeric confidence. -/
structure EmotionSignal where
  name : String
  score : Rat
deriving DecidableEq, Repr

/-- The entry dict a well-formed emotion signal corresponds to. -/
def sigEntry (s : EmotionSignal) : List (String × Json) :=
  [("name", Json.str s.name), ("score", Json.num s.score)]

/-- The descending-by-score order on emotion signals. -/
def sigDesc (a b : EmotionSignal) : Prop := b.score ≤ a.score

instance : DecidableRel sigDesc := fun a b => inferInstanceAs (Decidable (b.score ≤ a.score))

instance : IsTotal EmotionSignal sigDesc := ⟨fun a b => le_total b.score a.score⟩

instance : IsTrans EmotionSignal sigDesc := ⟨fun _ _ _ h1 h2 => le_trans h2 h1⟩

/-- The stable descending sort of emotion signals (Python sorted with
reverse=True is stable, as is insertion sort). -/
def sortSignalsDesc (l : List EmotionSignal) : List EmotionSignal :=
  l.insertionSort sigDesc

/-- The comma-separated summary of the top five signals by score. -/
def signalSummary (l : List EmotionSignal) : String :=
  String.intercalate ", " (((sortSignalsDesc l).take 5).map (fun s => s.name ++ ": " ++ fmt2 s.score))

/-- One turn of a conversation, as appended to the per-connection
history and passed to the provider. -/
structure Turn where
  role : String
  content : String
deriving DecidableEq, Repr

/-- The PipelineState record shared with the frontend.  Timestamps are
abstract strings supplied by the caller of each transition. -/
structure PipelineState where
  stage : String
  transcript : String
  response : String
  emotions : List (List (String × Json))
  timestamp : String
  latency_ms : Option Rat
deriving Repr

/-- PipelineState.reset: every field set to its initial value, with the
current time recorded. -/
def PipelineState.reset (now : String) : PipelineState :=
  { stage := "idle", transcript := "", response := "", emotions := [],
    timestamp := now, latency_ms := none }

/-- PipelineState.to_dict. -/
def PipelineState.to_dict (s : PipelineState) : List (String × Json) :=
  [("stage", Json.str s.stage), ("transcript", Json.str s.transcript),
   ("response", Json.str s.response), ("emotions", Json.arr (s.emotions.map Json.obj)),
   ("timestamp", Json.str s.timestamp),
   ("latency_ms", match s.latency_ms with | none => Json.null | some q => Json.num q)]

/-- The module-level mutable data of the server apart from the provider
selection: the shared pipeline state and the interaction history, the
latter stored as the state snapshots appended at each completed turn. -/
structure GlobalState where
  pipeline : PipelineState
  history : List PipelineState
deriving Repr

/-- The result of processing one websocket frame that did not raise. -/
structure WsStepOut where
  conv : List Turn
  gstate : GlobalState
  sent : List (List (String × Json))
  providerCalls : List (List Turn)
deriving Repr

/-- One iteration of the clm_websocket receive loop.  The reply string
stands for the value returned by the provider call, and now and latency
for the wall-clock readings; the sent field lists the frames written
back to the socket and providerCalls the conversation snapshots passed
to the provider. -/
def ws_step (payload : List (String × Json)) (reply now : String) (latency : Rat)
    (conv : List Turn) (g : GlobalState) : Except PyErr WsStepOut :=
  match extract_transcript payload with
  | Except.error e => Except.error e
  | Except.ok transcript =>
    match extract_emotions payload with
    | Except.error e => Except.error e
    | Except.ok emotions =>
      if transcript = "" then Except.ok ⟨conv, g, [], []⟩
      else
        let ps1 := { g.pipeline with
          stage := "transcribed"
          transcript := transcript
          emotions := emotions
          timestamp := now }
        match emotion_context emotions with
        | Except.error e => Except.error e
        | Except.ok ctx =>
          let conv1 := conv ++ [⟨"user", transcript ++ ctx⟩]
          let ps2 := { ps1 with stage := "thinking" }
          let ps3 := { ps2 with latency_ms := some latency, stage := "speaking", response := reply }
          Except.ok ⟨conv1 ++ [⟨"assistant", reply⟩],
            { pipeline := { ps3 with stage := "idle" }, history := g.history ++ [ps3] },
            [[("type", Json.str "assistant_input"), ("text", Json.str reply)]],
            [conv1]⟩

/-- Whether the connection survived the frame. -/
inductive ConnStatus where
  | alive
  | closed
deriving DecidableEq, Repr

/-- The observable outcome of receiving one frame, exception handling of
the websocket handler included. -/
structure WsRecvOut where
  status : ConnStatus
  conv : List Turn
  gstate : GlobalState
  sent : List (List (String × Json))
deriving Repr

/-- One received frame as seen from outside the handler: a raised error
ends the connection, resets the shared pipeline state at resetTime and
discards the per-connection conversation. -/
def ws_receive (payload : List (String × Json)) (reply now : String) (latency : Rat)
    (resetTime : String) (conv : List Turn) (g : GlobalState) : WsRecvOut :=
  match ws_step payload reply now latency conv g with
  | Except.ok out => ⟨ConnStatus.alive, out.conv, out.gstate, out.sent⟩
  | Except.error _ =>
    ⟨ConnStatus.closed, [], { g with pipeline := PipelineState.reset resetTime }, []⟩

/-- The result of one direct_chat call that did not raise. -/
structure ChatOut where
  gstate : GlobalState
  body : List (String × Json)
  providerCall : List Turn
deriving Repr

/-- The direct_chat endpoint: a fresh single-user-turn conversation is
built for every call; reply stands for the provider result and latency
for the measured elapsed time. -/
def direct_chat (message : String) (emotions : List (List (String × Json)))
    (provider reply : String) (latency : Rat) (g : GlobalState) : Except PyErr ChatOut :=
  let ps1 := { g.pipeline with
    stage := "transcribed"
    transcript := message
    emotions := emotions }
  match emotion_context emotions with
  | Except.error e => Except.error e
  | Except.ok ctx =>
    let conversation : List Turn := [⟨"user", message ++ ctx⟩]
    let ps2 := { ps1 with stage := "thinking" }
    let ps3 := { ps2 with latency_ms := some latency, stage := "speaking", response := reply }
    Except.ok ⟨{ pipeline := { ps3 with stage := "idle" }, history := g.history ++ [ps3] },
      [("response", Json.str reply), ("latency_ms", Json.num latency),
       ("emotions_detected", Json.arr (emotions.map Json.obj)),
       ("llm_provider", Json.str provider)],
      conversation⟩

/-- The provider-facing configuration read from the environment. -/
structure Env where
  openaiInstalled : Bool
  openaiApiKey : Option String
  anthropicApiKey : Option String
deriving DecidableEq, Repr

/-- The module-level provider selection and the two optional client
handles. -/
structure ServerState where
  llmProvider : String
  claudeClient : Option Unit
  openaiClient : Option Unit
deriving DecidableEq, Repr

/-- The outcome of the anthropic messages.create call: a returned
response carrying its list of content blocks (some text when the block
has a text attribute, none when it does not), a raised
anthropic.APIError, or any other exception raised by the call. -/
inductive ClaudeOutcome where
  | response (content : List (Option String))
  | apiError (msg : String)
  | otherExc (e : PyErr)
deriving DecidableEq, Repr

/-- The outcome of the openai chat.completions.create call together with
the indexing of its first choice.  The handler catches Exception, so
only the extracted reply text of a normal response and the fact that
some exception was raised are distinguishable from outside. -/
inductive OpenaiOutcome where
  | response (text : String)
  | exc (msg : String)
deriving DecidableEq, Repr

/-- The fixed placeholder returned by _call_claude when no client is
configured. -/
def claudeNotConfigured : String := "Claude API not configured. Set ANTHROPIC_API_KEY in .env"

/-- The fixed placeholder returned by _call_openai when no client is
configured. -/
def openaiNotConfigured : String := "OpenAI API not configured. Set OPENAI_API_KEY in .env"

/-- The fixed placeholder returned when the provider call raised. -/
def troubleReply : String := "I'm having trouble thinking right now. Could you try again?"

/-- _call_claude: only anthropic.APIError is caught and converted to
the trouble placeholder; the indexing response.content[0] and the text
attribute access sit inside the try but raise exceptions that are not
APIError, so they propagate, as does any other non-APIError exception
raised by the call. -/
def call_claude (claudeClient : Option Unit) (api : ClaudeOutcome) : Except PyErr String :=
  match claudeClient with
  | none => Except.ok claudeNotConfigured
  | some _ =>
    match api with
    | ClaudeOutcome.apiError _ => Except.ok troubleReply
    | ClaudeOutcome.otherExc e => Except.error e
    | ClaudeOutcome.response content =>
      match content with
      | [] => Except.error PyErr.indexError
      | some t :: _ => Except.ok t
      | none :: _ => Except.error PyErr.attributeError

/-- _call_openai: the handler catches Exception, so every raised
exception is converted to the trouble placeholder and the call is
total. -/
def call_openai (openaiClient : Option Unit) (api : OpenaiOutcome) : String :=
  match openaiClient with
  | none => openaiNotConfigured
  | some _ =>
    match api with
    | OpenaiOutcome.response text => text
    | OpenaiOutcome.exc _ => troubleReply

/-- _call_llm: route to the provider selected by LLM_PROVIDER. -/
def call_llm (st : ServerState) (capi : ClaudeOutcome) (oapi : OpenaiOutcome) :
    Except PyErr String :=
  if st.llmProvider = "openai" then Except.ok (call_openai st.openaiClient oapi)
  else call_claude st.claudeClient capi

/-- The client handle of the currently selected provider. -/
def selectedClient (st : ServerState) : Option Unit :=
  if st.llmProvider = "openai" then st.openaiClient else st.claudeClient

/-- The missing-configuration placeholder of the currently selected
provider. -/
def notConfiguredMsg (st : ServerState) : String :=
  if st.llmProvider = "openai" then openaiNotConfigured else claudeNotConfigured

/-- The payload returned by the switch endpoint. -/
inductive SwitchResult where
  | error (reason : String)
  | switched (provider : String)
deriving DecidableEq, Repr

/-- The error payload for a provider name outside the closed set. -/
def errUnsupported : String := "Provider must be 'claude' or 'openai'"

/-- The error payload when the optional openai package is missing. -/
def errNoOpenaiPkg : String := "openai package not installed. Run: pip install openai"

/-- The error payload when OPENAI_API_KEY is unset. -/
def errNoOpenaiKey : String := "OPENAI_API_KEY not set in .env"

/-- The error payload when ANTHROPIC_API_KEY is unset. -/
def errNoAnthropicKey : String := "ANTHROPIC_API_KEY not set in .env"

/-- Python truthiness of a credential: an unset variable or the empty
string both count as missing. -/
def keyMissing (k : Option String) : Bool := k.getD "" = ""

/-- Python str.lower, over the character list so concrete instances
reduce definitionally. -/
def pyLower (s : String) : String := String.mk (s.data.map Char.toLower)

/-- The switch_provider endpoint: validate the lowered name, re-resolve
the credential from the environment, and only then mutate the selection
and the client handle. -/
def switch_provider (env : Env) (st : ServerState) (provider : String) : ServerState × SwitchResult :=
  let p := pyLower provider
  if p = "claude" ∨ p = "openai" then
    if p = "openai" then
      if env.openaiInstalled then
        if keyMissing env.openaiApiKey then (st, SwitchResult.error errNoOpenaiKey)
        else ({ st with llmProvider := p, openaiClient := some () }, SwitchResult.switched p)
      else (st, SwitchResult.error errNoOpenaiPkg)
    else
      if keyMissing env.anthropicApiKey then (st, SwitchResult.error errNoAnthropicKey)
      else ({ st with llmProvider := p, claudeClient := some () }, SwitchResult.switched p)
  else (st, SwitchResult.error errUnsupported)

/-- The status endpoint: the pipeline state as a flat dict plus the
active provider identifier. -/
def get_status (st : ServerState) (g : GlobalState) : List (String × Json) :=
  g.pipeline.to_dict ++ [("llm_provider", Json.str st.llmProvider)]

/-- The history endpoint. -/
def get_history (g : GlobalState) : List (String × Json) :=
  [("interactions", Json.arr (g.history.map (fun s => Json.obj s.to_dict)))]

/-- The reset endpoint: reset the pipeline state, clear the history and
acknowledge. -/
def reset_state (now : String) (_g : GlobalState) : GlobalState × List (String × Json) :=
  ({ pipeline := PipelineState.reset now, history := [] }, [("status", Json.str "reset")])
/-- True when an Except value carries a result rather than a raised
exception. -/
def isOkE {α : Type} : Except PyErr α → Bool
  | Except.ok _ => true
  | Except.error _ => false

/-- Shape condition under which the prosody walk over one container
cannot raise: models, prosody and every prediction and emotion are
mappings and the predictions field, when present, is a list. -/
def wtProsody (kvs : List (String × Json)) : Bool :=
  match kvs.lookup "models" with
  | none => true
  | some (Json.obj mkvs) =>
    match dictGet mkvs "prosody" (Json.obj []) with
    | Json.obj pkvs =>
      match pkvs.lookup "predictions" with
      | none => true
      | some (Json.arr preds) =>
        preds.all (fun pr =>
          match pr with
          | Json.obj prkvs =>
            match dictGet prkvs "emotions" (Json.arr []) with
            | Json.arr es => es.all (fun e => match e with | Json.obj _ => true | _ => false)
            | _ => false
          | _ => false)
      | some _ => false
    | _ => false
  | some _ => false

/-- Shape condition under which one element of a messages list cannot
make either extraction raise: the element is a mapping, a mapping
content carries a string text field, and its prosody block is well
shaped. -/
def wtMsgEntry (m : Json) : Bool :=
  match m with
  | Json.obj kvs =>
    (match dictGet kvs "content" (Json.str "") with
     | Json.obj c =>
       (match dictGet c "text" (Json.str "") with
        | Json.str _ => true
        | _ => false)
     | _ => true) && wtProsody kvs
  | _ => false

/-- The named top-level field, when present, is a string. -/
def wtStrField (p : List (String × Json)) (k : String) : Bool :=
  match p.lookup k with
  | none => true
  | some (Json.str _) => true
  | some _ => false

/-- Shape condition on a payload under which neither extraction can
raise: every field the extractors consult has the container or scalar
type the code indexes it with. -/
def wellTypedPayload (p : List (String × Json)) : Bool :=
  (match p.lookup "messages" with
   | none => true
   | some (Json.arr ms) => ms.all wtMsgEntry
   | some _ => false) &&
  wtStrField p "transcript" && wtStrField p "text" && wtProsody p &&
  (match p.lookup "emotion_features" with
   | none => true
   | some (Json.obj fkvs) =>
     fkvs.all (fun kv =>
       match kv.2 with
       | Json.num _ => true
       | Json.bool _ => true
       | _ => false)
   | some _ => false)

/-- The concrete payload refuting the never-raises claim: a transcript
field that is a number makes the strip call raise. -/
def badTranscriptPayload : List (String × Json) := [("transcript", Json.num 123)]

/-- A payload whose models field is a number: the attribute access on it
raises although the extracted transcript is empty. -/
def badModelsPayload : List (String × Json) := [("models", Json.num 5)]

/-- A pipeline state carrying a transcript, used to observe the state
reset performed by the websocket exception handler. -/
def busyGlobal : GlobalState :=
  ⟨⟨"idle", "hi", "", [], "t0", none⟩, []⟩

/-- A prosody payload whose emotion name field is a number: the
extractor copies it through unchanged. -/
def numericNamePayload : List (String × Json) :=
  [("models", Json.obj [("prosody", Json.obj [("predictions", Json.arr
    [Json.obj [("emotions", Json.arr [Json.obj [("name", Json.num 42)]])]])])])]

/-- Whether a Json value is a string. -/
def isStrJson : Json → Bool
  | Json.str _ => true
  | _ => false

/-- The mapping of the most recent user entry of the demo payload. -/
def demoUserKvs : List (String × Json) :=
  [("role", Json.str "user"), ("content", Json.str " last ")]

/-- A messages payload holding an older user entry, the most recent user
entry and a trailing assistant entry. -/
def demoMessagesPayload : List (String × Json) :=
  [("messages", Json.arr
    [Json.obj [("role", Json.str "user"), ("content", Json.str "first")],
     Json.obj demoUserKvs,
     Json.obj [("role", Json.str "assistant"), ("content", Json.str "mid")]])]

/-- A payload carrying both a prosody block (one emotion) and an
emotion_features mapping (two emotions). -/
def bothSourcesPayload : List (String × Json) :=
  [("models", Json.obj [("prosody", Json.obj [("predictions", Json.arr
     [Json.obj [("emotions", Json.arr
       [Json.obj [("name", Json.str "joy"), ("score", Json.num 1)]])]])])]),
   ("emotion_features", Json.obj [("calm", Json.num 2), ("ire", Json.num 3)])]

/-- The process-start global state. -/
def initGlobal : GlobalState :=
  ⟨⟨"idle", "", "", [], "t0", none⟩, []⟩

/-- The outcome of the first demo websocket frame. -/
def wsOut1Demo : WsStepOut :=
  ⟨[⟨"user", "hello"⟩, ⟨"assistant", "hi"⟩],
   ⟨⟨"idle", "hello", "hi", [], "ta", some 1⟩,
    [⟨"speaking", "hello", "hi", [], "ta", some 1⟩]⟩,
   [[("type", Json.str "assistant_input"), ("text", Json.str "hi")]],
   [[⟨"user", "hello"⟩]]⟩

/-- The outcome of the second demo websocket frame. -/
def wsOut2Demo : WsStepOut :=
  ⟨[⟨"user", "hello"⟩, ⟨"assistant", "hi"⟩, ⟨"user", "again"⟩, ⟨"assistant", "sure"⟩],
   ⟨⟨"idle", "again", "sure", [], "tb", some 2⟩,
    [⟨"speaking", "hello", "hi", [], "ta", some 1⟩,
     ⟨"speaking", "again", "sure", [], "tb", some 2⟩]⟩,
   [[("type", Json.str "assistant_input"), ("text", Json.str "sure")]],
   [[⟨"user", "hello"⟩, ⟨"assistant", "hi"⟩, ⟨"user", "again"⟩]]⟩

/-- The outcome of the demo one-shot chat call. -/
def chatOutDemo : ChatOut :=
  ⟨⟨⟨"idle", "hello", "hi", [], "t0", some 1⟩,
    [⟨"speaking", "hello", "hi", [], "t0", some 1⟩]⟩,
   [("response", Json.str "hi"), ("latency_ms", Json.num 1),
    ("emotions_detected", Json.arr []), ("llm_provider", Json.str "claude")],
   [⟨"user", "hello"⟩]⟩

/-- C1 counterexample: with a configured claude client a non-APIError
exception raised inside the try propagates to the caller instead of
becoming the placeholder — here the IndexError from indexing the empty
content list of a returned response. -/
theorem claim_C1_counterexample :
    call_claude (some ()) (ClaudeOutcome.response []) = Except.error PyErr.indexError ∧
    call_llm ⟨"claude", some (), none⟩ (ClaudeOutcome.response [])
      (OpenaiOutcome.exc "boom") = Except.error PyErr.indexError := ⟨rfl, rfl⟩

/-- C1 (amended): with no client configured for the selected provider
the call returns that provider's fixed missing-configuration placeholder
as a normal result; a raised anthropic.APIError on the claude path, and
any raised exception on the openai path, is caught and converted to the
fixed trouble placeholder as a normal result; a well-formed response
yields its text; the openai path never propagates an exception, but the
claude path propagates a non-APIError exception raised inside the try,
such as the IndexError from an empty response content list. -/
theorem claim_C1 (st : ServerState) (capi : ClaudeOutcome) (oapi : OpenaiOutcome) :
    (selectedClient st = none →
      call_llm st capi oapi = Except.ok (notConfiguredMsg st)) ∧
    (st.llmProvider = "openai" →
      call_llm st capi oapi = Except.ok (call_openai st.openaiClient oapi)) ∧
    (st.llmProvider = "openai" → st.openaiClient ≠ none →
      (∀ msg, oapi = OpenaiOutcome.exc msg →
        call_llm st capi oapi = Except.ok troubleReply) ∧
      (∀ t, oapi = OpenaiOutcome.response t → call_llm st capi oapi = Except.ok t)) ∧
    (st.llmProvider ≠ "openai" → st.claudeClient ≠ none →
      (∀ msg, capi = ClaudeOutcome.apiError msg →
        call_llm st capi oapi = Except.ok troubleReply) ∧
      (∀ t rest, capi = ClaudeOutcome.response (some t :: rest) →
        call_llm st capi oapi = Except.ok t) ∧
      (∀ e, capi = ClaudeOutcome.otherExc e →
        call_llm st capi oapi = Except.error e) ∧
      (capi = ClaudeOutcome.response [] →
        call_llm st capi oapi = Except.error PyErr.indexError)) := by
  obtain ⟨prov, cc, oc⟩ := st
  unfold call_llm selectedClient notConfiguredMsg call_claude call_openai
  by_cases h : prov = "openai"
  · simp only [h, reduceIte]
    cases oc
    · simp
    · cases oapi <;> simp
  · simp only [h, reduceIte]
    cases cc
    · simp [h]
    · cases capi
      · rename_i content
        cases content
        · simp [h]
        · rename_i b rest
          cases b <;> simp [h]
      · simp [h]
      · simp [h]

/-- C1 witness: the three caught cases at concrete inputs — missing
claude client, a claude APIError, and an openai exception — all yield
normal placeholder results. -/
theorem claim_C1_witness :
    call_llm ⟨"claude", none, none⟩ (ClaudeOutcome.apiError "boom")
      (OpenaiOutcome.exc "x") = Except.ok claudeNotConfigured ∧
    call_llm ⟨"claude", some (), none⟩ (ClaudeOutcome.apiError "boom")
      (OpenaiOutcome.exc "x") = Except.ok troubleReply ∧
    call_llm ⟨"openai", none, some ()⟩ (ClaudeOutcome.apiError "boom")
      (OpenaiOutcome.exc "x") = Except.ok troubleReply := by
  refine ⟨?_, ?_, ?_⟩
  · exact (claim_C1 ⟨"claude", none, none⟩ (ClaudeOutcome.apiError "boom")
      (OpenaiOutcome.exc "x")).1 rfl
  · exact ((claim_C1 ⟨"claude", some (), none⟩ (ClaudeOutcome.apiError "boom")
      (OpenaiOutcome.exc "x")).2.2.2 (by decide) (by simp)).1 "boom" rfl
  · exact ((claim_C1 ⟨"openai", none, some ()⟩ (ClaudeOutcome.apiError "boom")
      (OpenaiOutcome.exc "x")).2.2.1 rfl (by simp)).1 "x" rfl

/-- C8: after a reset the history is empty and the pipeline state is the
idle state with empty transcript and response; a second reset reproduces
the same empty-state result (every field but the freshly taken timestamp
is identical), so reset is idempotent on the pipeline state and the
history. -/
theorem claim_C8 (g : GlobalState) (t1 t2 : String) :
    get_history (reset_state t1 g).1 = [("interactions", Json.arr [])] ∧
    (reset_state t1 g).1.pipeline.stage = "idle" ∧
    (reset_state t1 g).1.pipeline.transcript = "" ∧
    (reset_state t1 g).1.pipeline.response = "" ∧
    (reset_state t1 g).1.pipeline.emotions = [] ∧
    (reset_state t1 g).1.pipeline.latency_ms = none ∧
    (reset_state t1 g).1.history = [] ∧
    reset_state t2 (reset_state t1 g).1 = reset_state t2 g ∧
    (reset_state t2 (reset_state t1 g).1).1.pipeline.stage = (reset_state t1 g).1.pipeline.stage ∧
    (reset_state t2 (reset_state t1 g).1).1.pipeline.transcript
      = (reset_state t1 g).1.pipeline.transcript ∧
    (reset_state t2 (reset_state t1 g).1).1.pipeline.response
      = (reset_state t1 g).1.pipeline.response ∧
    (reset_state t2 (reset_state t1 g).1).1.history = (reset_state t1 g).1.history := by
  simp [reset_state, get_history, PipelineState.reset]

/-- The status endpoint always reports the active provider under the
llm_provider key. -/
theorem get_status_provider (st : ServerState) (g : GlobalState) :
    (get_status st g).lookup "llm_provider" = some (Json.str st.llmProvider) := rfl

/-- C3: a switch to an unsupported name, to a provider whose credential
is unset, or to openai with the package missing returns an error payload
with the matching one of the distinct reasons and leaves the whole
server state, hence the active provider reported by a status query,
unchanged; only a successful switch changes the selection, and then the
switched payload names exactly the new provider. -/
theorem claim_C3 (env : Env) (st : ServerState) (g : GlobalState) (provider : String) :
    (∀ msg, (switch_provider env st provider).2 = SwitchResult.error msg →
      (switch_provider env st provider).1 = st ∧
      (get_status (switch_provider env st provider).1 g).lookup "llm_provider" =
        some (Json.str st.llmProvider)) ∧
    (∀ q, (switch_provider env st provider).2 = SwitchResult.switched q →
      q = pyLower provider ∧
      (switch_provider env st provider).1.llmProvider = q) ∧
    (pyLower provider ≠ "claude" → pyLower provider ≠ "openai" →
      switch_provider env st provider = (st, SwitchResult.error errUnsupported)) ∧
    (pyLower provider = "openai" → env.openaiInstalled = false →
      switch_provider env st provider = (st, SwitchResult.error errNoOpenaiPkg)) ∧
    (pyLower provider = "openai" → env.openaiInstalled = true →
      keyMissing env.openaiApiKey = true →
      switch_provider env st provider = (st, SwitchResult.error errNoOpenaiKey)) ∧
    (pyLower provider = "claude" → keyMissing env.anthropicApiKey = true →
      switch_provider env st provider = (st, SwitchResult.error errNoAnthropicKey)) ∧
    (errUnsupported ≠ errNoOpenaiPkg ∧ errUnsupported ≠ errNoOpenaiKey ∧
      errUnsupported ≠ errNoAnthropicKey ∧ errNoOpenaiPkg ≠ errNoOpenaiKey ∧
      errNoOpenaiPkg ≠ errNoAnthropicKey ∧ errNoOpenaiKey ≠ errNoAnthropicKey) := by
  unfold switch_provider
  by_cases h1 : pyLower provider = "claude" <;>
    by_cases h2 : pyLower provider = "openai" <;>
    simp only [h1, h2, reduceIte, or_true, true_or, or_self] <;>
    first
      | (exact absurd (h1.symm.trans h2) (by decide))
      | (cases hb : env.openaiInstalled <;>
          cases hk : keyMissing env.openaiApiKey <;>
          cases ha : keyMissing env.anthropicApiKey <;>
          simp_all [get_status_provider, errUnsupported, errNoOpenaiPkg, errNoOpenaiKey,
            errNoAnthropicKey])

/-- C3 witness: a switch to an unknown provider name errors and keeps
the selection, while a switch to openai with package and key present
succeeds, at concrete inputs. -/
theorem claim_C3_witness :
    switch_provider ⟨false, none, none⟩ ⟨"claude", none, none⟩ "gemini" =
      (⟨"claude", none, none⟩, SwitchResult.error errUnsupported) ∧
    (switch_provider ⟨true, some "k", none⟩ ⟨"claude", some (), none⟩ "openai").2 =
      SwitchResult.switched "openai" ∧
    (switch_provider ⟨true, some "k", none⟩ ⟨"claude", some (), none⟩ "openai").1.llmProvider =
      "openai" := by
  refine ⟨?_, rfl, ?_⟩
  · exact (claim_C3 ⟨false, none, none⟩ ⟨"claude", none, none⟩ busyGlobal "gemini").2.2.1
      (by decide) (by decide)
  · exact ((claim_C3 ⟨true, some "k", none⟩ ⟨"claude", some (), none⟩ busyGlobal "openai").2.1
      "openai" rfl).2

/-- C9 counterexample: a frame whose extracted transcript is empty but
whose models field is malformed makes the handler raise instead of
looping back: the connection closes and the shared pipeline state is
reset, clearing the transcript it held — an observable side effect. -/
theorem claim_C9_counterexample :
    extract_transcript badModelsPayload = Except.ok "" ∧
    (ws_receive badModelsPayload "r" "t1" 1 "t2" [] busyGlobal).status = ConnStatus.closed ∧
    (ws_receive badModelsPayload "r" "t1" 1 "t2" [] busyGlobal).gstate.pipeline.transcript = "" ∧
    busyGlobal.pipeline.transcript = "hi" := ⟨rfl, rfl, rfl, rfl⟩

/-- C9 (amended): for a frame on which both extractions succeed and the
transcript is empty, the loop iteration is a strict no-op: the
conversation, the shared pipeline state and the interaction history are
returned unchanged, nothing is sent, no provider call is made and the
connection stays open. -/
theorem claim_C9 (payload : List (String × Json)) (reply now : String) (latency : Rat)
    (resetTime : String) (conv : List Turn) (g : GlobalState)
    (es : List (List (String × Json)))
    (ht : extract_transcript payload = Except.ok "")
    (he : extract_emotions payload = Except.ok es) :
    ws_step payload reply now latency conv g = Except.ok ⟨conv, g, [], []⟩ ∧
    ws_receive payload reply now latency resetTime conv g =
      ⟨ConnStatus.alive, conv, g, []⟩ := by
  have h1 : ws_step payload reply now latency conv g = Except.ok ⟨conv, g, [], []⟩ := by
    unfold ws_step
    rw [ht, he]
    simp
  refine ⟨h1, ?_⟩
  unfold ws_receive
  rw [h1]

/-- C9 witness: the empty payload extracts an empty transcript and the
iteration leaves everything untouched. -/
theorem claim_C9_witness :
    ws_step [] "r" "t1" 1 [] busyGlobal = Except.ok ⟨[], busyGlobal, [], []⟩ :=
  (claim_C9 [] "r" "t1" 1 "t2" [] busyGlobal [] rfl rfl).1

/-- A list of emotion mappings makes the inner extraction loop succeed. -/
theorem entriesOfEmotionList_wt (es : List Json)
    (h : es.all (fun e => match e with | Json.obj _ => true | _ => false) = true) :
    isOkE (entriesOfEmotionList es) = true := by
  induction es with
  | nil => rfl
  | cons e rest ih =>
    rw [List.all_cons, Bool.and_eq_true] at h
    obtain ⟨he, hrest⟩ := h
    cases e
    case obj ekvs =>
      have hr := ih hrest
      cases hq : entriesOfEmotionList rest with
      | ok tl => simp [entriesOfEmotionList, hq, isOkE]
      | error er => rw [hq] at hr; exact absurd hr (by simp [isOkE])
    all_goals simp at he

/-- A well-shaped predictions list makes the prediction loop succeed. -/
theorem entriesOfPreds_wt (preds : List Json)
    (h : preds.all (fun pr =>
          match pr with
          | Json.obj prkvs =>
            match dictGet prkvs "emotions" (Json.arr []) with
            | Json.arr es => es.all (fun e => match e with | Json.obj _ => true | _ => false)
            | _ => false
          | _ => false) = true) :
    isOkE (entriesOfPreds preds) = true := by
  induction preds with
  | nil => rfl
  | cons pr rest ih =>
    rw [List.all_cons, Bool.and_eq_true] at h
    obtain ⟨hp, hrest⟩ := h
    cases pr
    case obj prkvs =>
      have hr := ih hrest
      simp only at hp
      cases hq : dictGet prkvs "emotions" (Json.arr [])
      case arr es =>
        rw [hq] at hp
        have h1 := entriesOfEmotionList_wt es hp
        cases h2 : entriesOfEmotionList es with
        | error er => rw [h2] at h1; exact absurd h1 (by simp [isOkE])
        | ok hd =>
          cases h3 : entriesOfPreds rest with
          | error er => rw [h3] at hr; exact absurd hr (by simp [isOkE])
          | ok tl => simp [entriesOfPreds, hq, h2, h3, isOkE]
      all_goals (rw [hq] at hp; simp at hp)
    all_goals simp at hp

/-- A well-shaped prosody block makes the prosody walk succeed. -/
theorem prosodyBlock_wt (kvs : List (String × Json)) (h : wtProsody kvs = true) :
    isOkE (prosodyBlock kvs) = true := by
  unfold wtProsody at h
  unfold prosodyBlock
  cases hm : kvs.lookup "models"
  · rfl
  case some v =>
    rw [hm] at h
    try dsimp only at h ⊢
    cases v
    case obj mkvs =>
      try dsimp only at h ⊢
      cases hp : dictGet mkvs "prosody" (Json.obj [])
      case obj pkvs =>
        rw [hp] at h
        try dsimp only at h ⊢
        cases hq : pkvs.lookup "predictions"
        · rfl
        case some w =>
          rw [hq] at h
          try dsimp only at h ⊢
          cases w
          case arr preds =>
            try dsimp only at h ⊢
            exact entriesOfPreds_wt preds h
          all_goals simp at h
      all_goals (rw [hp] at h; simp at h)
    all_goals simp at h

/-- Well-shaped messages entries make the per-message prosody loop
succeed. -/
theorem msgsProsody_wt (ms : List Json) (h : ms.all wtMsgEntry = true) :
    isOkE (msgsProsody ms) = true := by
  induction ms with
  | nil => rfl
  | cons m rest ih =>
    rw [List.all_cons, Bool.and_eq_true] at h
    obtain ⟨hm, hrest⟩ := h
    unfold wtMsgEntry at hm
    cases m
    case obj kvs =>
      rw [Bool.and_eq_true] at hm
      have h1 := prosodyBlock_wt kvs hm.2
      have hr := ih hrest
      cases h2 : prosodyBlock kvs with
      | error er => rw [h2] at h1; exact absurd h1 (by simp [isOkE])
      | ok hd =>
        cases h3 : msgsProsody rest with
        | error er => rw [h3] at hr; exact absurd hr (by simp [isOkE])
        | ok tl => simp [msgsProsody, h2, h3, isOkE]
    all_goals simp at hm

/-- Numeric emotion_features values make the features loop succeed. -/
theorem featEntries_wt (fkvs : List (String × Json))
    (h : fkvs.all (fun kv =>
          match kv.2 with
          | Json.num _ => true
          | Json.bool _ => true
          | _ => false) = true) :
    isOkE (featEntries fkvs) = true := by
  induction fkvs with
  | nil => rfl
  | cons kv rest ih =>
    rw [List.all_cons, Bool.and_eq_true] at h
    obtain ⟨hv, hrest⟩ := h
    obtain ⟨n, v⟩ := kv
    have hr := ih hrest
    cases h3 : featEntries rest with
    | error er => rw [h3] at hr; exact absurd hr (by simp [isOkE])
    | ok tl =>
      cases v
      case num q => simp [featEntries, pyFloat, h3, isOkE]
      case bool b => simp [featEntries, pyFloat, h3, isOkE]
      all_goals simp at hv

/-- Well-shaped messages entries make the transcript scan succeed. -/
theorem scanUser_wt (ms : List Json) (h : ∀ m ∈ ms, wtMsgEntry m = true) :
    isOkE (scanUser ms) = true := by
  induction ms with
  | nil => rfl
  | cons m rest ih =>
    have hm := h m (List.mem_cons_self m rest)
    have hr := ih (fun x hx => h x (List.mem_cons_of_mem m hx))
    unfold wtMsgEntry at hm
    cases m
    case obj kvs =>
      dsimp only at hm
      rw [Bool.and_eq_true] at hm
      obtain ⟨hcontent, _⟩ := hm
      simp only [scanUser]
      cases hrole : dictGet kvs "role" Json.null
      · exact hr
      · exact hr
      · exact hr
      case str r =>
        by_cases hu : r = "user"
        · simp only [hu, reduceIte]
          cases hc : dictGet kvs "content" (Json.str "")
          · exact hr
          · exact hr
          · exact hr
          · simp [isOkE]
          · exact hr
          · rename_i c
            rw [hc] at hcontent
            dsimp only at hcontent
            cases ht : dictGet c "text" (Json.str "")
            · rw [ht] at hcontent; simp at hcontent
            · rw [ht] at hcontent; simp at hcontent
            · rw [ht] at hcontent; simp at hcontent
            · simp [ht, stripVal, isOkE, Except.map]
            · rw [ht] at hcontent; simp at hcontent
            · rw [ht] at hcontent; simp at hcontent
        · simp only [hu, reduceIte]; exact hr
      · exact hr
      · exact hr
    all_goals simp at hm

/-- Well-typed transcript and text fields make the fallback rules
succeed. -/
theorem transcriptFallback_wt (p : List (String × Json))
    (h1 : wtStrField p "transcript" = true) (h2 : wtStrField p "text" = true) :
    isOkE (transcriptFallback p) = true := by
  unfold wtStrField at h1 h2
  unfold transcriptFallback
  cases ht : p.lookup "transcript"
  · cases hx : p.lookup "text"
    · rfl
    case some v =>
      rw [hx] at h2
      cases v <;> (simp at h2; try simp [stripVal, isOkE])
  case some v =>
    rw [ht] at h1
    cases v <;> (simp at h1; try simp [stripVal, isOkE])

/-- C4 counterexample: the extraction raises on fields of unexpected
type instead of degrading — a numeric transcript value makes the
transcript extractor raise, and a numeric models value makes the emotion
extractor raise. -/
theorem claim_C4_counterexample :
    extract_transcript badTranscriptPayload = Except.error PyErr.attributeError ∧
    extract_emotions badModelsPayload = Except.error PyErr.attributeError := ⟨rfl, rfl⟩

/-- C4 (amended): for every payload whose consulted fields carry the
container or scalar types the code indexes them with (messages a list of
mappings whose mapping contents hold string text, transcript and text
strings when present, a well-shaped prosody tree, numeric
emotion_features values), neither extraction raises; and a payload
carrying none of the consulted keys degrades to the empty transcript and
the empty emotion list. -/
theorem claim_C4 (p : List (String × Json)) (h : wellTypedPayload p = true) :
    isOkE (extract_transcript p) = true ∧ isOkE (extract_emotions p) = true ∧
    (p.lookup "messages" = none → p.lookup "transcript" = none → p.lookup "text" = none →
      extract_transcript p = Except.ok "") ∧
    (p.lookup "models" = none → p.lookup "messages" = none →
      p.lookup "emotion_features" = none → extract_emotions p = Except.ok []) := by
  unfold wellTypedPayload at h
  simp only [Bool.and_eq_true] at h
  obtain ⟨⟨⟨⟨hA, hB⟩, hC⟩, hD⟩, hE⟩ := h
  refine ⟨?_, ?_, ?_, ?_⟩
  · unfold extract_transcript
    cases hms : p.lookup "messages"
    · exact transcriptFallback_wt p hB hC
    case some v =>
      rw [hms] at hA
      cases v <;> try simp at hA
      case arr ms =>
        have hall : ∀ m ∈ ms.reverse, wtMsgEntry m = true := by
          intro m hm
          rw [List.mem_reverse] at hm
          exact hA m hm
        have hok := scanUser_wt ms.reverse hall
        try dsimp only
        cases hs : scanUser ms.reverse
        case error er => rw [hs] at hok; exact absurd hok (by simp [isOkE])
        case ok o =>
          cases o
          · exact transcriptFallback_wt p hB hC
          · rfl
  · unfold extract_emotions
    have hpb := prosodyBlock_wt p hD
    cases h1 : prosodyBlock p
    case error er => rw [h1] at hpb; exact absurd hpb (by simp [isOkE])
    case ok a =>
      have hme : isOkE (messagesEmotions p) = true := by
        unfold messagesEmotions
        cases hms : p.lookup "messages"
        · rfl
        case some v =>
          rw [hms] at hA
          cases v <;> try simp at hA
          case arr ms => exact msgsProsody_wt ms (List.all_eq_true.mpr hA)
      cases h2 : messagesEmotions p
      case error er => rw [h2] at hme; exact absurd hme (by simp [isOkE])
      case ok b =>
        have hfe : isOkE (featuresEmotions p) = true := by
          unfold featuresEmotions
          cases hf : p.lookup "emotion_features"
          · rfl
          case some v =>
            rw [hf] at hE
            cases v <;> try simp at hE
            case obj fkvs => exact featEntries_wt fkvs (List.all_eq_true.mpr (fun x hx => hE x.1 x.2 hx))
        cases h3 : featuresEmotions p
        case error er => rw [h3] at hfe; exact absurd hfe (by simp [isOkE])
        case ok c => simp [isOkE]
  · intro hm ht hx
    unfold extract_transcript transcriptFallback
    rw [hm, ht, hx]
  · intro hmo hms hf
    unfold extract_emotions prosodyBlock messagesEmotions featuresEmotions
    rw [hmo, hms, hf]
    rfl

/-- C4 witness: a plain transcript payload is well typed and both
extractions succeed on it. -/
theorem claim_C4_witness :
    wellTypedPayload [("transcript", Json.str " ok ")] = true ∧
    isOkE (extract_transcript [("transcript", Json.str " ok ")]) = true ∧
    isOkE (extract_emotions [("transcript", Json.str " ok ")]) = true :=
  ⟨rfl, (claim_C4 [("transcript", Json.str " ok ")] rfl).1,
    (claim_C4 [("transcript", Json.str " ok ")] rfl).2.1⟩

/-- Mappings without role user are skipped by the reverse scan. -/
theorem scanUser_skip (l rest : List Json)
    (h : ∀ m ∈ l, ∃ kvs, m = Json.obj kvs ∧ dictGet kvs "role" Json.null ≠ Json.str "user") :
    scanUser (l ++ rest) = scanUser rest := by
  induction l with
  | nil => rfl
  | cons m tl ih =>
    obtain ⟨kvs, rfl, hrole⟩ := h m (List.mem_cons_self m tl)
    have ih2 := ih (fun x hx => h x (List.mem_cons_of_mem _ hx))
    simp only [List.cons_append, scanUser]
    cases hr : dictGet kvs "role" Json.null
    · exact ih2
    · exact ih2
    · exact ih2
    case str r =>
      have hu : ¬ r = "user" := by rintro rfl; exact hrole hr
      simp only [hu, reduceIte]
      exact ih2
    · exact ih2
    · exact ih2

/-- C2: the four transcript rules apply in order with first match
winning.  With a messages list present, the most recent entry of role
user supplies the transcript, stripped if its content is a string and
the stripped text field if the content is a mapping; a messages list
with no user entry falls through to the later rules; without a messages
list a string transcript field is used stripped, else a string text
field stripped, else the empty string. -/
theorem claim_C2 (message : List (String × Json)) :
    (∀ ms pre ukvs post, message.lookup "messages" = some (Json.arr ms) →
      ms = pre ++ Json.obj ukvs :: post →
      dictGet ukvs "role" Json.null = Json.str "user" →
      (∀ m ∈ post, ∃ kvs, m = Json.obj kvs ∧ dictGet kvs "role" Json.null ≠ Json.str "user") →
      ((∀ s, dictGet ukvs "content" (Json.str "") = Json.str s →
          extract_transcript message = Except.ok (pyStrip s)) ∧
       (∀ ckvs t, dictGet ukvs "content" (Json.str "") = Json.obj ckvs →
          dictGet ckvs "text" (Json.str "") = Json.str t →
          extract_transcript message = Except.ok (pyStrip t)))) ∧
    (message.lookup "messages" = none →
      ∀ s, message.lookup "transcript" = some (Json.str s) →
      extract_transcript message = Except.ok (pyStrip s)) ∧
    (message.lookup "messages" = none → message.lookup "transcript" = none →
      ∀ s, message.lookup "text" = some (Json.str s) →
      extract_transcript message = Except.ok (pyStrip s)) ∧
    (message.lookup "messages" = none → message.lookup "transcript" = none →
      message.lookup "text" = none → extract_transcript message = Except.ok "") ∧
    (∀ ms, message.lookup "messages" = some (Json.arr ms) →
      (∀ m ∈ ms, ∃ kvs, m = Json.obj kvs ∧ dictGet kvs "role" Json.null ≠ Json.str "user") →
      extract_transcript message = transcriptFallback message) := by
  refine ⟨?_, ?_, ?_, ?_, ?_⟩
  · intro ms pre ukvs post hms hsplit hrole hpost
    have hrev : ms.reverse = post.reverse ++ (Json.obj ukvs :: pre.reverse) := by
      subst hsplit
      simp [List.reverse_append]
    have hskip : scanUser ms.reverse = scanUser (Json.obj ukvs :: pre.reverse) := by
      rw [hrev]
      exact scanUser_skip post.reverse _ (fun m hm => hpost m (List.mem_reverse.mp hm))
    constructor
    · intro s hcontent
      unfold extract_transcript
      rw [hms]
      dsimp only
      rw [hskip]
      simp only [scanUser, hrole, reduceIte, hcontent]
    · intro ckvs t hcontent htext
      unfold extract_transcript
      rw [hms]
      dsimp only
      rw [hskip]
      simp only [scanUser, hrole, reduceIte, hcontent, htext, stripVal, Except.map]
  · intro hm s ht
    unfold extract_transcript transcriptFallback
    rw [hm, ht]
    rfl
  · intro hm ht s hx
    unfold extract_transcript transcriptFallback
    rw [hm, ht, hx]
    rfl
  · intro hm ht hx
    unfold extract_transcript transcriptFallback
    rw [hm, ht, hx]
  · intro ms hms hall
    unfold extract_transcript
    rw [hms]
    dsimp only
    have hskip : scanUser ms.reverse = scanUser ([] : List Json) := by
      have := scanUser_skip ms.reverse []
        (fun m hm => hall m (List.mem_reverse.mp hm))
      rwa [List.append_nil] at this
    rw [hskip]
    rfl

/-- C2 witness: on the demo payload the scan returns the stripped
content of the most recent user entry, skipping the assistant entry
behind it. -/
theorem claim_C2_witness :
    extract_transcript demoMessagesPayload = Except.ok "last" := by
  have h := ((claim_C2 demoMessagesPayload).1
    [Json.obj [("role", Json.str "user"), ("content", Json.str "first")],
     Json.obj demoUserKvs,
     Json.obj [("role", Json.str "assistant"), ("content", Json.str "mid")]]
    [Json.obj [("role", Json.str "user"), ("content", Json.str "first")]]
    demoUserKvs
    [Json.obj [("role", Json.str "assistant"), ("content", Json.str "mid")]]
    rfl rfl rfl ?_).1 " last " rfl
  · exact h
  · intro m hm
    rw [List.mem_singleton] at hm
    subst hm
    exact ⟨[("role", Json.str "assistant"), ("content", Json.str "mid")], rfl, by simp [dictGet]⟩

/-- C5: emotion extraction concatenates its three sources without
merging or deduplication: a payload with no emotion-bearing keys yields
the empty list, and whenever the three sources extract successfully the
result is exactly their concatenation, whose length is the sum of the
three contributions — in particular the sum of the prosody and
emotion_features contributions when both are present. -/
theorem claim_C5 (p : List (String × Json)) :
    (p.lookup "models" = none → p.lookup "messages" = none →
      p.lookup "emotion_features" = none → extract_emotions p = Except.ok []) ∧
    (∀ a b c, prosodyBlock p = Except.ok a → messagesEmotions p = Except.ok b →
      featuresEmotions p = Except.ok c →
      extract_emotions p = Except.ok (a ++ b ++ c) ∧
      (a ++ b ++ c).length = a.length + b.length + c.length) := by
  constructor
  · intro h1 h2 h3
    unfold extract_emotions prosodyBlock messagesEmotions featuresEmotions
    rw [h1, h2, h3]
    rfl
  · intro a b c h1 h2 h3
    constructor
    · unfold extract_emotions
      rw [h1, h2, h3]
    · simp [Nat.add_assoc]

/-- C5 witness: the payload carrying both a prosody block and an
emotion_features mapping yields the three entries concatenated, of
length 1 + 0 + 2. -/
theorem claim_C5_witness :
    extract_emotions bothSourcesPayload =
      Except.ok [[("name", Json.str "joy"), ("score", Json.num 1)],
                 [("name", Json.str "calm"), ("score", Json.num 2)],
                 [("name", Json.str "ire"), ("score", Json.num 3)]] ∧
    ([[("name", Json.str "joy"), ("score", Json.num 1)]] ++
      ([] : List (List (String × Json))) ++
      [[("name", Json.str "calm"), ("score", Json.num 2)],
       [("name", Json.str "ire"), ("score", Json.num 3)]]).length = 1 + 0 + 2 := by
  have h := (claim_C5 bothSourcesPayload).2
    [[("name", Json.str "joy"), ("score", Json.num 1)]] []
    [[("name", Json.str "calm"), ("score", Json.num 2)],
     [("name", Json.str "ire"), ("score", Json.num 3)]]
    rfl rfl rfl
  exact ⟨h.1, h.2⟩

/-- Every entry produced by the inner emotion loop carries both keys. -/
theorem entriesOfEmotionList_mem (es : List Json) :
    ∀ l, entriesOfEmotionList es = Except.ok l →
      ∀ e ∈ l, (e.lookup "name").isSome = true ∧ (e.lookup "score").isSome = true := by
  induction es with
  | nil =>
    intro l h e he
    injection h with h2
    subst h2
    cases he
  | cons x rest ih =>
    intro l h e he
    cases x
    case obj ekvs =>
      unfold entriesOfEmotionList at h
      cases hr : entriesOfEmotionList rest <;> rw [hr] at h
      case error er => exact Except.noConfusion h
      case ok tl =>
        injection h with h2
        subst h2
        rcases List.mem_cons.mp he with rfl | hmem
        · exact ⟨rfl, rfl⟩
        · exact ih tl hr e hmem
    all_goals exact Except.noConfusion h

/-- Every entry produced by the predictions loop carries both keys. -/
theorem entriesOfPreds_mem (preds : List Json) :
    ∀ l, entriesOfPreds preds = Except.ok l →
      ∀ e ∈ l, (e.lookup "name").isSome = true ∧ (e.lookup "score").isSome = true := by
  induction preds with
  | nil =>
    intro l h e he
    injection h with h2
    subst h2
    cases he
  | cons x rest ih =>
    intro l h e he
    cases x
    case obj pkvs =>
      unfold entriesOfPreds at h
      cases hq : dictGet pkvs "emotions" (Json.arr []) <;> rw [hq] at h
      case arr es =>
        dsimp only at h
        cases h1 : entriesOfEmotionList es <;> rw [h1] at h
        case error er =>
          cases hx : entriesOfPreds rest <;> rw [hx] at h <;> exact Except.noConfusion h
        case ok hd =>
          cases h2 : entriesOfPreds rest <;> rw [h2] at h <;> dsimp only at h
          case error er => exact Except.noConfusion h
          case ok tl =>
            injection h with h3
            subst h3
            rcases List.mem_append.mp he with hmem | hmem
            · exact entriesOfEmotionList_mem es hd h1 e hmem
            · exact ih tl h2 e hmem
      all_goals exact Except.noConfusion h
    all_goals exact Except.noConfusion h

/-- Every entry produced by the prosody walk carries both keys. -/
theorem prosodyBlock_mem (kvs : List (String × Json)) :
    ∀ l, prosodyBlock kvs = Except.ok l →
      ∀ e ∈ l, (e.lookup "name").isSome = true ∧ (e.lookup "score").isSome = true := by
  intro l h e he
  unfold prosodyBlock at h
  cases hm : kvs.lookup "models" <;> rw [hm] at h
  · injection h with h2; subst h2; cases he
  case some v =>
    cases v <;> try exact Except.noConfusion h
    case obj mkvs =>
      dsimp only at h
      cases hp : dictGet mkvs "prosody" (Json.obj []) <;> rw [hp] at h <;>
        try exact Except.noConfusion h
      case obj pkvs =>
        dsimp only at h
        cases hq : pkvs.lookup "predictions" <;> rw [hq] at h
        · injection h with h2; subst h2; cases he
        case some w =>
          cases w <;> try exact Except.noConfusion h
          case arr preds =>
            dsimp only at h
            exact entriesOfPreds_mem preds l h e he

/-- Every entry produced by the per-message prosody loop carries both
keys. -/
theorem msgsProsody_mem (ms : List Json) :
    ∀ l, msgsProsody ms = Except.ok l →
      ∀ e ∈ l, (e.lookup "name").isSome = true ∧ (e.lookup "score").isSome = true := by
  induction ms with
  | nil =>
    intro l h e he
    injection h with h2
    subst h2
    cases he
  | cons m rest ih =>
    intro l h e he
    cases m
    case obj kvs =>
      unfold msgsProsody at h
      cases h1 : prosodyBlock kvs <;> rw [h1] at h
      case error er =>
        cases hx : msgsProsody rest <;> rw [hx] at h <;> exact Except.noConfusion h
      case ok hd =>
        cases h2 : msgsProsody rest <;> rw [h2] at h <;> dsimp only at h
        case error er => exact Except.noConfusion h
        case ok tl =>
          injection h with h3
          subst h3
          rcases List.mem_append.mp he with hmem | hmem
          · exact prosodyBlock_mem kvs hd h1 e hmem
          · exact ih tl h2 e hmem
    all_goals exact Except.noConfusion h

/-- Every entry produced by the emotion_features loop carries both
keys. -/
theorem featEntries_mem (fkvs : List (String × Json)) :
    ∀ l, featEntries fkvs = Except.ok l →
      ∀ e ∈ l, (e.lookup "name").isSome = true ∧ (e.lookup "score").isSome = true := by
  induction fkvs with
  | nil =>
    intro l h e he
    injection h with h2
    subst h2
    cases he
  | cons kv rest ih =>
    intro l h e he
    obtain ⟨n, v⟩ := kv
    unfold featEntries at h
    cases h1 : pyFloat v <;> rw [h1] at h
    case error er =>
      cases hx : featEntries rest <;> rw [hx] at h <;> exact Except.noConfusion h
    case ok q =>
      cases h2 : featEntries rest <;> rw [h2] at h <;> dsimp only at h
      case error er => exact Except.noConfusion h
      case ok tl =>
        injection h with h3
        subst h3
        rcases List.mem_cons.mp he with rfl | hmem
        · exact ⟨rfl, rfl⟩
        · exact ih tl h2 e hmem

/-- C10 counterexample: a prosody source whose name field is a number is
copied through unchanged, so an extractor-produced entry need not carry
a string under the name key. -/
theorem claim_C10_counterexample :
    extract_emotions numericNamePayload =
      Except.ok [[("name", Json.num 42), ("score", Json.num 0)]] ∧
    isStrJson (dictGet [("name", Json.num 42), ("score", Json.num 0)] "name" Json.null) =
      false := ⟨rfl, rfl⟩

/-- C10 (amended): every entry produced by the emotion extractor is a
mapping carrying both a name key and a score key — the string unknown
when the source omits the name, the number 0.0 when it omits the score —
so the downstream top-5 sort and the two-decimal formatting never fail
on a missing key for extractor-produced entries; the values, however,
are copied from the source and need not be a string and a number. -/
theorem claim_C10 (p : List (String × Json)) (l : List (List (String × Json)))
    (h : extract_emotions p = Except.ok l) :
    (∀ e ∈ l, (e.lookup "name").isSome = true ∧ (e.lookup "score").isSome = true) ∧
    (∀ ekvs, ekvs.lookup "name" = none →
      (emotionEntry ekvs).lookup "name" = some (Json.str "unknown")) ∧
    (∀ ekvs, ekvs.lookup "score" = none →
      (emotionEntry ekvs).lookup "score" = some (Json.num 0)) := by
  refine ⟨?_, ?_, ?_⟩
  · intro e he
    unfold extract_emotions at h
    cases h1 : prosodyBlock p <;> rw [h1] at h
    case error er => exact Except.noConfusion h
    case ok a =>
      cases h2 : messagesEmotions p <;> rw [h2] at h
      case error er => exact Except.noConfusion h
      case ok b =>
        cases h3 : featuresEmotions p <;> rw [h3] at h
        case error er => exact Except.noConfusion h
        case ok c =>
          injection h with h4
          subst h4
          rcases List.mem_append.mp he with hab | hc
          · rcases List.mem_append.mp hab with ha | hb
            · exact prosodyBlock_mem p a h1 e ha
            · unfold messagesEmotions at h2
              cases hms : p.lookup "messages" <;> rw [hms] at h2
              · injection h2 with h5; subst h5; cases hb
              case some v =>
                cases v <;> try exact Except.noConfusion h2
                case arr ms =>
                  dsimp only at h2
                  exact msgsProsody_mem ms b h2 e hb
          · unfold featuresEmotions at h3
            cases hf : p.lookup "emotion_features" <;> rw [hf] at h3
            · injection h3 with h5; subst h5; cases hc
            case some v =>
              cases v <;> try exact Except.noConfusion h3
              case obj fkvs =>
                dsimp only at h3
                exact featEntries_mem fkvs c h3 e hc
  · intro ekvs hn
    unfold emotionEntry dictGet
    rw [hn]
    rfl
  · intro ekvs hs
    unfold emotionEntry dictGet
    rw [hs]
    rfl

/-- C10 witness: the first entry produced from the payload carrying
both sources has both keys. -/
theorem claim_C10_witness :
    (([("name", Json.str "joy"), ("score", Json.num 1)] :
        List (String × Json)).lookup "name").isSome = true ∧
    (([("name", Json.str "joy"), ("score", Json.num 1)] :
        List (String × Json)).lookup "score").isSome = true :=
  (claim_C10 bothSourcesPayload _ rfl).1
    [("name", Json.str "joy"), ("score", Json.num 1)] (List.mem_cons_self _ _)

/-- Keying well-formed signal entries recovers the scores. -/
theorem keyedEntries_sig (sigs : List EmotionSignal) :
    keyedEntries (sigs.map sigEntry) =
      Except.ok (sigs.map (fun s => (sigEntry s, s.score))) := by
  induction sigs with
  | nil => rfl
  | cons s rest ih =>
    have hk : sortKeyOf (sigEntry s) = Except.ok s.score := rfl
    simp only [List.map_cons, keyedEntries, hk, ih]

/-- Formatting keyed well-formed signal entries yields the name and the
two-decimal score of each. -/
theorem fmtParts_sig (sigs : List EmotionSignal) :
    fmtParts (sigs.map (fun s => (sigEntry s, s.score))) =
      Except.ok (sigs.map (fun s => s.name ++ ": " ++ fmt2 s.score)) := by
  induction sigs with
  | nil => rfl
  | cons s rest ih =>
    have hn : (sigEntry s).lookup "name" = some (Json.str s.name) := rfl
    have hs : (sigEntry s).lookup "score" = some (Json.num s.score) := rfl
    simp only [List.map_cons, fmtParts, hn, hs, ih, fstr]

/-- Sorting the keyed entries of signals is sorting the signals. -/
theorem sort_map_comm (sigs : List EmotionSignal) :
    (sigs.map (fun s => (sigEntry s, s.score))).insertionSort entryDesc =
      (sigs.insertionSort sigDesc).map (fun s => (sigEntry s, s.score)) :=
  (List.map_insertionSort sigDesc entryDesc (fun s => (sigEntry s, s.score)) sigs
    (fun _ _ _ _ => Iff.rfl)).symm

/-- C6: for a non-empty list of well-formed emotion signals the
prompt-enrichment text is the bracketed summary of the five highest
signals in stable descending score order, each rendered as the name, a
colon and the two-decimal score; the sort is descending; the reference
input of scores 0.9, 0.4 and 0.1 renders exactly in that order; and an
empty emotion list appends nothing. -/
theorem claim_C6 (sigs : List EmotionSignal) (h : sigs ≠ []) :
    emotion_context (sigs.map sigEntry) =
      Except.ok ("\n[Voice emotion analysis: " ++ signalSummary sigs ++ "]") ∧
    List.Sorted sigDesc (sortSignalsDesc sigs) ∧
    emotion_context
      [sigEntry ⟨"joy", mkRat 9 10⟩, sigEntry ⟨"anger", mkRat 4 10⟩,
       sigEntry ⟨"calm", mkRat 1 10⟩] =
      Except.ok "\n[Voice emotion analysis: joy: 0.90, anger: 0.40, calm: 0.10]" ∧
    emotion_context [] = Except.ok "" := by
  refine ⟨?_, List.sorted_insertionSort sigDesc sigs, rfl, rfl⟩
  cases sigs with
  | nil => exact absurd rfl h
  | cons s rest =>
    unfold emotion_context
    rw [List.map_cons]
    dsimp only
    rw [show (sigEntry s :: rest.map sigEntry) = (s :: rest).map sigEntry from rfl]
    rw [keyedEntries_sig]
    dsimp only
    rw [sort_map_comm, ← List.map_take, fmtParts_sig]
    dsimp only
    unfold signalSummary sortSignalsDesc
    rfl

/-- C6 witness: the reference input applied through the theorem. -/
theorem claim_C6_witness :
    emotion_context
      [sigEntry ⟨"joy", mkRat 9 10⟩, sigEntry ⟨"anger", mkRat 4 10⟩,
       sigEntry ⟨"calm", mkRat 1 10⟩] =
      Except.ok "\n[Voice emotion analysis: joy: 0.90, anger: 0.40, calm: 0.10]" :=
  (claim_C6 [⟨"joy", mkRat 9 10⟩, ⟨"anger", mkRat 4 10⟩, ⟨"calm", mkRat 1 10⟩]
    (by simp)).2.2.1

/-- C7: every one-shot chat call builds a fresh conversation of exactly
one user turn for its provider invocation, independent of any prior
state; on a continuous channel two processed messages accumulate turn
history, so the second provider invocation receives exactly the three
turns first user, first assistant, second user in that order. -/
theorem claim_C7 :
    (∀ message emotions provider reply latency g out,
      direct_chat message emotions provider reply latency g = Except.ok out →
      ∃ ctx, emotion_context emotions = Except.ok ctx ∧
        out.providerCall = [⟨"user", message ++ ctx⟩] ∧
        out.providerCall.length = 1) ∧
    (∀ p1 p2 t1 t2 e1 e2 c1 c2 r1 r2 n1 n2 l1 l2 g out1 out2,
      extract_transcript p1 = Except.ok t1 → t1 ≠ "" →
      extract_emotions p1 = Except.ok e1 → emotion_context e1 = Except.ok c1 →
      extract_transcript p2 = Except.ok t2 → t2 ≠ "" →
      extract_emotions p2 = Except.ok e2 → emotion_context e2 = Except.ok c2 →
      ws_step p1 r1 n1 l1 [] g = Except.ok out1 →
      ws_step p2 r2 n2 l2 out1.conv out1.gstate = Except.ok out2 →
      out1.conv = [⟨"user", t1 ++ c1⟩, ⟨"assistant", r1⟩] ∧
      out1.providerCalls = [[⟨"user", t1 ++ c1⟩]] ∧
      out2.providerCalls =
        [[⟨"user", t1 ++ c1⟩, ⟨"assistant", r1⟩, ⟨"user", t2 ++ c2⟩]]) := by
  constructor
  · intro message emotions provider reply latency g out hok
    unfold direct_chat at hok
    cases hc : emotion_context emotions <;> rw [hc] at hok
    case error er => exact Except.noConfusion hok
    case ok ctx =>
      dsimp only at hok
      injection hok with h2
      subst h2
      exact ⟨ctx, rfl, rfl, rfl⟩
  · intro p1 p2 t1 t2 e1 e2 c1 c2 r1 r2 n1 n2 l1 l2 g out1 out2
      ht1 hne1 he1 hc1 ht2 hne2 he2 hc2 hs1 hs2
    unfold ws_step at hs1
    rw [ht1] at hs1
    dsimp only at hs1
    rw [he1] at hs1
    dsimp only at hs1
    rw [if_neg hne1] at hs1
    rw [hc1] at hs1
    dsimp only at hs1
    injection hs1 with h1
    subst h1
    unfold ws_step at hs2
    rw [ht2] at hs2
    dsimp only at hs2
    rw [he2] at hs2
    dsimp only at hs2
    rw [if_neg hne2] at hs2
    rw [hc2] at hs2
    dsimp only at hs2
    injection hs2 with h2
    subst h2
    exact ⟨rfl, rfl, rfl⟩

/-- C7 witness: the demo one-shot call carries exactly one user turn,
and the second demo frame's provider invocation carries the three
accumulated turns. -/
theorem claim_C7_witness :
    chatOutDemo.providerCall = [Turn.mk "user" "hello"] ∧
    wsOut1Demo.conv = [Turn.mk "user" "hello", Turn.mk "assistant" "hi"] ∧
    wsOut2Demo.providerCalls =
      [[Turn.mk "user" "hello", Turn.mk "assistant" "hi", Turn.mk "user" "again"]] := by
  obtain ⟨ctx, hctx, hcall, -⟩ :=
    claim_C7.1 "hello" [] "claude" "hi" 1 initGlobal chatOutDemo rfl
  have hctx2 : ("" : String) = ctx := by
    have h0 : emotion_context [] = Except.ok "" := rfl
    rw [h0] at hctx
    injection hctx
  subst hctx2
  refine ⟨hcall, ?_, ?_⟩
  · exact (claim_C7.2 [("transcript", Json.str "hello")] [("text", Json.str "again")]
      "hello" "again" [] [] "" "" "hi" "sure" "ta" "tb" 1 2 initGlobal wsOut1Demo wsOut2Demo
      rfl (by decide) rfl rfl rfl (by decide) rfl rfl rfl rfl).1
  · exact (claim_C7.2 [("transcript", Json.str "hello")] [("text", Json.str "again")]
      "hello" "again" [] [] "" "" "hi" "sure" "ta" "tb" 1 2 initGlobal wsOut1Demo wsOut2Demo
      rfl (by decide) rfl rfl rfl (by decide) rfl rfl rfl rfl).2.2
